import Mathlib

/-!
Shallow embedding of `src/guessHowServer.py` (GuessHowServer).

The server's SQLite store is modelled as an explicit `Store` record threaded
through each endpoint handler.  Python's random draws (`random.choices`,
`random.sample`, `random.choice`, `uuid.uuid4`) are modelled by passing the
drawn values in as explicit parameters; a handler returns `none` when the
supplied draws do not correspond to a possible execution (for example an
out-of-range index for a `random.choice` on a nonempty sequence, or fuel
exhaustion of the unbounded id-retry loop).
-/

namespace GuessHow

/-- A row of the `users` table (lines 26-33).  `register_user` always stores a
hash and a salt, so both are plain strings here. -/
structure UserRec where
  id : Nat
  username : String
  password : String
  salt : String
  deriving DecidableEq, Repr

/-- A row of the `name_lists` table (lines 54-63).  `owner_id` is kept as the
JSON value the creator supplied (a numeric string in every real run, absent
when no owner was given); `is_public` is the stored 0/1 flag as a `Bool`. -/
structure NameListRec where
  id : Nat
  list_name : String
  names : List String
  owner_id : Option String
  is_public : Bool
  deriving DecidableEq, Repr

/-- A row of the `games` table (lines 77-89).  `player1_id`, `player2_id` and
`list_id` hold the request strings that were inserted. -/
structure Game where
  game_id : String
  list_id : String
  player1_id : String
  player2_id : Option String
  game_names : List String
  target_name : String
  deriving DecidableEq, Repr

/-- The whole persistent state: the three tables. -/
structure Store where
  users : List UserRec
  name_lists : List NameListRec
  games : List Game
  deriving DecidableEq, Repr

/-- Python truthiness of an optional request string: `None` and the empty
string are falsy (`if not username`, `if not player2_id`, ...). -/
def truthyStr : Option String → Bool
  | none => false
  | some s => !(s == "")

/-- Python truthiness of an optional JSON array (`if names:` in
`update_name_list`): absent and empty are falsy. -/
def truthyList : Option (List String) → Bool
  | none => false
  | some l => !l.isEmpty

/-- Python truthiness of the stored `player2_id` column (`if
game['player2_id']:` at line 527): NULL is falsy; a stored numeric string
round-trips through the INTEGER-affinity column, so the (unreachable for real
user ids) value 0 is falsy as well. -/
def colTruthy : Option String → Bool
  | none => false
  | some v => !(v == "") && !(v == "0")

/-- `str(...)` applied to a stored nullable `owner_id` column
(lines 319 and 450): `str(None)` is the string None. -/
def ownerStr : Option String → String
  | none => "None"
  | some s => s

/-- `sqlite` AUTOINCREMENT / `cursor.lastrowid` for a fresh row: one more than
the largest id present. -/
def nextId (ids : List Nat) : Nat := ids.foldr max 0 + 1

/-- Models `hashlib.sha256((salt + password).encode()).hexdigest()` from the
Python standard library (external to this repository).  No claim depends on
the digest's value, only on the call succeeding, so the digest is an abstract
tag of its input. -/
def sha256hex (s : String) : String := String.append "sha256:" s

/-- `hash_password(password, salt=None)` (lines 99-103).  `freshSalt` is the
externally drawn `uuid.uuid4().hex`.  When `password` is `None`, the Python
expression `salt + password` raises `TypeError`, modelled as `none`. -/
def hash_password (password : Option String) (salt : Option String)
    (freshSalt : String) : Option (String × String) :=
  let s := match salt with
    | none => freshSalt
    | some s0 => s0
  match password with
  | none => none
  | some p => some (sha256hex (String.append s p), s)

/-- `string.digits`. -/
def digitChars : List Char := ['0', '1', '2', '3', '4', '5', '6', '7', '8', '9']

/-- `generate_game_id()` (lines 95-96): the four uniform digit draws of
`random.choices(string.digits, k=4)` are the explicit randomness. -/
def generate_game_id (r : Fin 10 × Fin 10 × Fin 10 × Fin 10) : String :=
  String.mk [digitChars.getD r.1.val '0', digitChars.getD r.2.1.val '0',
             digitChars.getD r.2.2.1.val '0', digitChars.getD r.2.2.2.val '0']

/-- The id-generation retry loop of `create_game` (lines 453-459): keep
drawing until the drawn id is not already a stored `game_id`.  The finite list
of draws is the fuel; `none` models the loop not having terminated within the
supplied draws. -/
def gen_unique_game_id (games : List Game) :
    List (Fin 10 × Fin 10 × Fin 10 × Fin 10) → Option String
  | [] => none
  | r :: rs =>
    if games.any (fun g => g.game_id == generate_game_id r) then gen_unique_game_id games rs
    else some (generate_game_id r)

/-- `random.sample(population, k)` (line 466): `k` elements at pairwise
distinct positions of the population; the drawn positions are the explicit
randomness.  `none` when the supplied positions are not a possible draw. -/
def sample (population : List String) (k : Nat) (positions : List Nat) :
    Option (List String) :=
  if positions.length = k ∧ positions.Nodup ∧ ∀ i ∈ positions, i < population.length
  then some (positions.filterMap (fun i => population.get? i))
  else none

/-- `random.choice(seq)` (lines 468 and 541): one uniform position draw.
`none` both for an impossible out-of-range draw and for the `IndexError` that
`random.choice` raises on an empty sequence. -/
def choice (seq : List String) (j : Nat) : Option String := seq.get? j

/-- `register_user` (lines 105-151), returning the HTTP status and the store
after the request.  `freshSalt` is the `uuid.uuid4().hex` drawn inside
`hash_password`.  A password of `None` reaches `hash_password` inside the
`try` block, raises `TypeError`, and is answered with 500 after a rollback
(nothing had been written). -/
def register_user (s : Store) (isJson : Bool) (username password : Option String)
    (freshSalt : String) : Nat × Store :=
  if isJson = false then (415, s) else
  if truthyStr username = false then (400, s) else
  let un := match username with | none => "" | some u => u
  if s.users.any (fun u => u.username == un) then (409, s) else
  match hash_password password none freshSalt with
  | none => (500, s)
  | some hs =>
    let uid := nextId (s.users.map (fun u => u.id))
    let row : UserRec := { id := uid, username := un, password := hs.1, salt := hs.2 }
    (201, { s with users := s.users ++ [row] })

/-- `create_name_list` (lines 242-290), returning the HTTP status and the
store after the request.  `names` defaults to the empty array
(`data.get('names', [])`), `isPublic` to true. -/
def create_name_list (s : Store) (isJson : Bool) (listName : Option String)
    (names : Option (List String)) (ownerId : Option String)
    (isPublic : Option Bool) : Nat × Store :=
  if isJson = false then (415, s) else
  let nms := match names with | none => [] | some l => l
  if truthyStr listName = false then (400, s) else
  if nms.length < 24 then (400, s) else
  let lid := nextId (s.name_lists.map (fun l => l.id))
  let row : NameListRec :=
    { id := lid,
      list_name := match listName with | none => "" | some n => n,
      names := nms, owner_id := ownerId,
      is_public := match isPublic with | none => true | some b => b }
  (201, { s with name_lists := s.name_lists ++ [row] })

/-- `update_name_list` (lines 292-370), returning the HTTP status and the
store after the request.  The ownership check runs only when a truthy
`ownerId` was supplied (line 319); a truthy `names` array shorter than 24
entries is answered with 400 before anything is written (lines 330-332); a
request carrying no update field at all is answered with 400 (line 363). -/
def update_name_list (s : Store) (list_id : String) (isJson : Bool)
    (listName : Option String) (names : Option (List String))
    (isPublic : Option Bool) (ownerId : Option String) : Nat × Store :=
  if isJson = false then (415, s) else
  match s.name_lists.find? (fun l => toString l.id == list_id) with
  | none => (404, s)
  | some cur =>
    if truthyStr ownerId && !(ownerStr cur.owner_id == (match ownerId with | none => "" | some o => o))
    then (403, s) else
    if truthyList names && decide ((match names with | none => [] | some l => l).length < 24)
    then (400, s) else
    if truthyStr listName = false && truthyList names = false && isPublic.isNone
    then (400, s) else
    let upd := fun (l : NameListRec) =>
      if toString l.id == list_id then
        { l with
          list_name := if truthyStr listName then (match listName with | none => "" | some n => n) else l.list_name,
          names := if truthyList names then (match names with | none => [] | some m => m) else l.names,
          is_public := match isPublic with | none => l.is_public | some b => b }
      else l
    (200, { s with name_lists := s.name_lists.map upd })

/-- Result of `create_game`, with the payload of the 201 response. -/
inductive CreateGameResult where
  | notJson
  | missingField
  | playerNotFound
  | listNotFound
  | listForbidden
  | insufficientNames
  | created (gameId : String) (player1Id : String) (gameNames : List String)
      (targetName : String) (listId : String)
  deriving DecidableEq, Repr

/-- The HTTP status of each `create_game` outcome (lines 425-490). -/
def CreateGameResult.status : CreateGameResult → Nat
  | .notJson => 415
  | .missingField => 400
  | .playerNotFound => 404
  | .listNotFound => 404
  | .listForbidden => 403
  | .insufficientNames => 400
  | .created _ _ _ _ _ => 201

/-- `create_game` (lines 412-490).  `idDraws` are the successive
`generate_game_id` draws of the retry loop, `samplePos` the positions drawn by
`random.sample`, `tIdx` the position drawn by `random.choice`.  `none` when
the supplied draws do not correspond to a possible execution. -/
def create_game (s : Store) (isJson : Bool) (player1Id listId : Option String)
    (idDraws : List (Fin 10 × Fin 10 × Fin 10 × Fin 10)) (samplePos : List Nat)
    (tIdx : Nat) : Option (CreateGameResult × Store) :=
  if isJson = false then some (.notJson, s) else
  if truthyStr player1Id = false || truthyStr listId = false then some (.missingField, s) else
  let p1 := match player1Id with | none => "" | some p => p
  let lid := match listId with | none => "" | some l => l
  if (s.users.any fun u => toString u.id == p1) = false then some (.playerNotFound, s) else
  match s.name_lists.find? (fun l => toString l.id == lid) with
  | none => some (.listNotFound, s)
  | some nl =>
    if nl.is_public = false && !(ownerStr nl.owner_id == p1) then some (.listForbidden, s) else
    match gen_unique_game_id s.games idDraws with
    | none => none
    | some gid =>
      if nl.names.length < 24 then some (.insufficientNames, s) else
      match sample nl.names 24 samplePos with
      | none => none
      | some selected =>
        match choice selected tIdx with
        | none => none
        | some target =>
          let row : Game :=
            { game_id := gid, list_id := lid, player1_id := p1,
              player2_id := none, game_names := selected, target_name := target }
          some (.created gid p1 selected target lid, { s with games := s.games ++ [row] })

/-- Result of `join_game`, with the payload of the 200 response. -/
inductive JoinGameResult where
  | missingParam
  | playerNotFound
  | gameNotFound
  | alreadyFull
  | internalError
  | ok (gameId : String) (player1Id : String) (player2Id : String)
      (gameNames : List String) (targetName : String) (listId : String)
  deriving DecidableEq, Repr

/-- The HTTP status of each `join_game` outcome (lines 499-553). -/
def JoinGameResult.status : JoinGameResult → Nat
  | .missingParam => 400
  | .playerNotFound => 404
  | .gameNotFound => 404
  | .alreadyFull => 409
  | .internalError => 500
  | .ok _ _ _ _ _ _ => 200

/-- The `UPDATE games SET player2_id = ? WHERE game_id = ?` statement of
`join_game` (lines 530-533). -/
def setPlayer2 (games : List Game) (game_id p2 : String) : List Game :=
  games.map (fun g => if g.game_id == game_id then { g with player2_id := some p2 } else g)

/-- `join_game` (lines 492-555).  `j` is the position drawn by
`random.choice` on the available names.  The `UPDATE ... SET player2_id` and
its `conn.commit()` (lines 530-534) run BEFORE the draw, so when the
available-names list is empty the `IndexError` of `random.choice` is answered
with 500 while the committed update stays in the store (the `rollback` in the
handler is a no-op after a commit). -/
def join_game (s : Store) (game_id : String) (player2Id : Option String)
    (j : Nat) : Option (JoinGameResult × Store) :=
  if truthyStr player2Id = false then some (.missingParam, s) else
  let p2 := match player2Id with | none => "" | some p => p
  if (s.users.any fun u => toString u.id == p2) = false then some (.playerNotFound, s) else
  match s.games.find? (fun g => g.game_id == game_id) with
  | none => some (.gameNotFound, s)
  | some game =>
    if colTruthy game.player2_id then some (.alreadyFull, s) else
    let s2 : Store := { s with games := setPlayer2 s.games game_id p2 }
    let available := game.game_names.filter (fun n => !(n == game.target_name))
    match choice available j with
    | some tn =>
      some (.ok game.game_id game.player1_id p2 game.game_names tn game.list_id, s2)
    | none =>
      if available.isEmpty then some (.internalError, s2) else none

/-- Result of `get_game_status`. -/
inductive GameStatusResult where
  | notFound
  | ok (gameId : String) (listId : String) (player1Id : String)
      (player2Id : Option String) (gameNames : List String) (targetName : String)
  deriving DecidableEq, Repr

/-- `get_game_status` (lines 557-592): a pure read, no store written back. -/
def get_game_status (s : Store) (game_id : String) : GameStatusResult :=
  match s.games.find? (fun g => g.game_id == game_id) with
  | none => .notFound
  | some g => .ok g.game_id g.list_id g.player1_id g.player2_id g.game_names g.target_name

/-- The creation-time fields of a stored game: everything except `player2_id`.
`join_game` must leave this part of every row untouched. -/
def gameFrame (g : Game) : String × String × String × List String × String :=
  (g.game_id, g.list_id, g.player1_id, g.game_names, g.target_name)

/-! ## Concrete fixtures used by witnesses and counterexamples -/

/-- Thirty pairwise-distinct names. -/
def wNames : List String := (List.range 30).map (fun i => String.append "n" (toString i))

/-- Two registered users. -/
def wUsers : List UserRec :=
  [{ id := 1, username := "alice", password := "pw", salt := "st" },
   { id := 2, username := "bob", password := "pw", salt := "st" }]

/-- A waiting game holding 24 distinct names with target n0. -/
def wGame : Game :=
  { game_id := "0007", list_id := "1", player1_id := "1", player2_id := none,
    game_names := wNames.take 24, target_name := "n0" }

/-- A store with the waiting game `wGame`. -/
def wStoreJoin : Store := { users := wUsers, name_lists := [], games := [wGame] }

/-- `wGame` after user 2 joined. -/
def wGameJoined : Game := { wGame with player2_id := some "2" }

/-- `wStoreJoin` after user 2 joined `wGame`. -/
def wStoreJoined : Store := { wStoreJoin with games := [wGameJoined] }

/-- A game that is already full. -/
def wFullGame : Game :=
  { game_id := "0008", list_id := "1", player1_id := "1", player2_id := some "2",
    game_names := wNames.take 24, target_name := "n0" }

/-- A store with the full game `wFullGame`. -/
def wStoreFull : Store := { users := wUsers, name_lists := [], games := [wFullGame] }

/-- A name list of 30 names owned by user 1. -/
def wList : NameListRec :=
  { id := 1, list_name := "L", names := wNames, owner_id := some "1", is_public := true }

/-- A store with users and the list `wList`, no games yet. -/
def wStoreLists : Store := { users := wUsers, name_lists := [wList], games := [] }

/-- The empty store. -/
def wStoreEmpty : Store := { users := [], name_lists := [], games := [] }

/-- The game created from `wList` by drawing id 0001, positions 0..23 and
target position 0. -/
def wCreatedGame : Game :=
  { game_id := "0001", list_id := "1", player1_id := "1", player2_id := none,
    game_names := wNames.take 24, target_name := "n0" }

/-- `wStoreLists` after that creation. -/
def wStoreListsCreated : Store := { wStoreLists with games := [wCreatedGame] }

/-- A waiting game whose 24 `game_names` are all the single name A (reachable:
`create_name_list` accepts duplicate names and `random.sample` draws positions,
not distinct values), so its available-names list at join time is empty. -/
def wDupGame : Game :=
  { game_id := "0009", list_id := "1", player1_id := "1", player2_id := none,
    game_names := List.replicate 24 "A", target_name := "A" }

/-- A store with the degenerate game `wDupGame`. -/
def wStoreDup : Store := { users := wUsers, name_lists := [], games := [wDupGame] }

/-- `wDupGame` with the committed `player2_id` update. -/
def wDupGameJoined : Game := { wDupGame with player2_id := some "2" }

/-- `wDupGame` after its own creator (user 1) attempted the join: the UPDATE is
committed before the failure. -/
def wDupGameSelfJoined : Game := { wDupGame with player2_id := some "1" }

/-- The store `join_game` leaves behind after player 1's failing self-join of
`wDupGame`. -/
def wStoreDupSelfJoined : Store := { wStoreDup with games := [wDupGameSelfJoined] }

/-- The store `join_game` leaves behind after the failing join of `wDupGame`. -/
def wStoreDupJoined : Store := { wStoreDup with games := [wDupGameJoined] }

/-! ## Helper lemmas -/

theorem choice_mem (seq : List String) (j : Nat) (x : String)
    (h : choice seq j = some x) : x ∈ seq :=
  List.get?_mem h

theorem sample_eq (population : List String) (k : Nat) (positions : List Nat)
    (l : List String) (h : sample population k positions = some l) :
    positions.length = k ∧ positions.Nodup ∧ (∀ i ∈ positions, i < population.length) ∧
      l = positions.filterMap (fun i => population.get? i) := by
  unfold sample at h
  split at h
  case isTrue hc => exact ⟨hc.1, hc.2.1, hc.2.2, (Option.some.inj h).symm⟩
  case isFalse => cases h

theorem filterMap_get_length (population : List String) (positions : List Nat)
    (h : ∀ i ∈ positions, i < population.length) :
    (positions.filterMap (fun i => population.get? i)).length = positions.length := by
  induction positions with
  | nil => rfl
  | cons a as ih =>
    have ha : a < population.length := h a (List.mem_cons_self a as)
    obtain ⟨x, hx⟩ : ∃ x, population.get? a = some x := ⟨_, List.get?_eq_get ha⟩
    rw [List.filterMap_cons, hx]
    show (x :: List.filterMap (fun i => population.get? i) as).length = as.length + 1
    rw [List.length_cons, ih (fun i hi => h i (List.mem_cons_of_mem a hi))]

theorem digitChars_getD_isDigit (i : Fin 10) :
    (digitChars.getD i.val '0').isDigit = true := by
  fin_cases i <;> decide

theorem generate_game_id_shape (r : Fin 10 × Fin 10 × Fin 10 × Fin 10) :
    (generate_game_id r).length = 4 ∧
      ∀ c ∈ (generate_game_id r).data, c.isDigit = true := by
  refine ⟨rfl, ?_⟩
  intro c hc
  have hc4 : c ∈ [digitChars.getD r.1.val '0', digitChars.getD r.2.1.val '0',
      digitChars.getD r.2.2.1.val '0', digitChars.getD r.2.2.2.val '0'] := hc
  simp only [List.mem_cons, List.not_mem_nil, or_false] at hc4
  rcases hc4 with h | h | h | h <;> rw [h]
  · exact digitChars_getD_isDigit r.1
  · exact digitChars_getD_isDigit r.2.1
  · exact digitChars_getD_isDigit r.2.2.1
  · exact digitChars_getD_isDigit r.2.2.2

theorem gen_unique_game_id_eq (games : List Game)
    (rs : List (Fin 10 × Fin 10 × Fin 10 × Fin 10)) (gid : String)
    (h : gen_unique_game_id games rs = some gid) :
    (∃ r, gid = generate_game_id r) ∧ ∀ g ∈ games, g.game_id ≠ gid := by
  induction rs with
  | nil => cases h
  | cons r rs ih =>
    unfold gen_unique_game_id at h
    split at h
    · exact ih h
    · rename_i hany
      replace h : generate_game_id r = gid := Option.some.inj h
      refine ⟨⟨r, h.symm⟩, ?_⟩
      intro g hg hcontra
      apply hany
      rw [List.any_eq_true]
      exact ⟨g, hg, by rw [hcontra, h]; exact beq_self_eq_true gid⟩

theorem join_game_frame (s : Store) (gidReq : String) (p2v : Option String)
    (j : Nat) (r : JoinGameResult) (s2 : Store)
    (h : join_game s gidReq p2v j = some (r, s2)) :
    s2.users = s.users ∧ s2.name_lists = s.name_lists ∧
      s2.games.map gameFrame = s.games.map gameFrame := by
  have frame_pres : ∀ (p2 : String),
      ((setPlayer2 s.games gidReq p2).map gameFrame) = s.games.map gameFrame := by
    intro p2
    rw [setPlayer2, List.map_map]
    apply List.map_congr_left
    intro a _
    simp only [Function.comp_apply]
    by_cases hc : (a.game_id == gidReq) = true
    · rw [if_pos hc]
      rfl
    · rw [if_neg hc]
  simp only [join_game] at h
  split at h
  · rw [Option.some.injEq, Prod.mk.injEq] at h
    rw [← h.2]
    exact ⟨rfl, rfl, rfl⟩
  · split at h
    · rw [Option.some.injEq, Prod.mk.injEq] at h
      rw [← h.2]
      exact ⟨rfl, rfl, rfl⟩
    · split at h
      · rw [Option.some.injEq, Prod.mk.injEq] at h
        rw [← h.2]
        exact ⟨rfl, rfl, rfl⟩
      · split at h
        · rw [Option.some.injEq, Prod.mk.injEq] at h
          rw [← h.2]
          exact ⟨rfl, rfl, rfl⟩
        · split at h
          · rw [Option.some.injEq, Prod.mk.injEq] at h
            rw [← h.2]
            exact ⟨rfl, rfl, frame_pres _⟩
          · split at h
            · rw [Option.some.injEq, Prod.mk.injEq] at h
              rw [← h.2]
              exact ⟨rfl, rfl, frame_pres _⟩
            · cases h

theorem join_game_preserves_game_ids (s : Store) (gidReq : String)
    (p2v : Option String) (j : Nat) (r : JoinGameResult) (s2 : Store)
    (h : join_game s gidReq p2v j = some (r, s2)) :
    s2.games.map (fun g => g.game_id) = s.games.map (fun g => g.game_id) := by
  have hf := (join_game_frame s gidReq p2v j r s2 h).2.2
  have e1 : s2.games.map (fun g => g.game_id) = (s2.games.map gameFrame).map Prod.fst := by
    rw [List.map_map]; rfl
  have e2 : s.games.map (fun g => g.game_id) = (s.games.map gameFrame).map Prod.fst := by
    rw [List.map_map]; rfl
  rw [e1, e2, hf]

/-! ## Claim theorems -/

/-- C1: for every successful JoinGame on a stored waiting game, the names array of
the response is the game's stored gameNames, and the target name returned to
player 2 is an element of those gameNames and differs from the target name stored
for player 1 at creation. -/
theorem join_game_target2_in_pool_and_differs
    (s : Store) (gidReq : String) (p2v : Option String) (j : Nat) (g : Game)
    (gid p1 p2 : String) (names : List String) (tn lid : String) (s2 : Store)
    (hfind : s.games.find? (fun g0 => g0.game_id == gidReq) = some g)
    (hok : join_game s gidReq p2v j = some (.ok gid p1 p2 names tn lid, s2)) :
    names = g.game_names ∧ tn ∈ g.game_names ∧ tn ≠ g.target_name := by
  simp only [join_game] at hok
  split at hok
  · simp at hok
  · split at hok
    · simp at hok
    · split at hok
      · simp at hok
      · rename_i game heq
        rw [hfind] at heq
        replace heq : game = g := (Option.some.inj heq).symm
        subst heq
        split at hok
        · simp at hok
        · split at hok
          · rename_i tn0 hch
            simp only [Option.some.injEq, Prod.mk.injEq, JoinGameResult.ok.injEq] at hok
            obtain ⟨⟨hgid, hp1, hp2, hnames, htn, hlid⟩, hs2⟩ := hok
            subst hnames htn
            have hmem := choice_mem _ _ _ hch
            rw [List.mem_filter] at hmem
            refine ⟨rfl, hmem.1, ?_⟩
            intro hcontra
            have hpred := hmem.2
            simp [hcontra] at hpred
          · split at hok
            · simp at hok
            · simp at hok

/-- Witness for C1: user 2 joins the waiting game 0007 with draw 0 and receives
target n1, which is in the pool and differs from player 1's stored target n0. -/
theorem join_game_target2_in_pool_and_differs_witness :
    (wStoreJoin.games.find? (fun g0 => g0.game_id == "0007") = some wGame) ∧
    (join_game wStoreJoin "0007" (some "2") 0
      = some (.ok "0007" "1" "2" wGame.game_names "n1" "1", wStoreJoined)) ∧
    (wGame.game_names = wGame.game_names ∧ "n1" ∈ wGame.game_names ∧
      ("n1" : String) ≠ wGame.target_name) :=
  ⟨by decide, by decide,
    join_game_target2_in_pool_and_differs wStoreJoin "0007" (some "2") 0 wGame
      "0007" "1" "2" wGame.game_names "n1" "1" wStoreJoined (by decide) (by decide)⟩

/-- C2: every successful CreateGame stores a gameNames array of length exactly 24
whose entries are read off pairwise-distinct positions of the source list's names
(so each element is an element of the source list and the draw is without
replacement), and the returned targetName is an element of gameNames; the new
game row carries exactly that array and target. -/
theorem create_game_sample_24_without_replacement
    (s : Store) (p1v lidv : String) (idDraws : List (Fin 10 × Fin 10 × Fin 10 × Fin 10))
    (samplePos : List Nat) (tIdx : Nat) (src : NameListRec)
    (gid p1 : String) (selected : List String) (target lid : String) (s2 : Store)
    (hfind : s.name_lists.find? (fun l => toString l.id == lidv) = some src)
    (hok : create_game s true (some p1v) (some lidv) idDraws samplePos tIdx
      = some (.created gid p1 selected target lid, s2)) :
    selected.length = 24 ∧ (∀ n ∈ selected, n ∈ src.names) ∧
      samplePos.Nodup ∧ samplePos.length = 24 ∧
      selected = samplePos.filterMap (fun i => src.names.get? i) ∧
      target ∈ selected ∧
      s2.games = s.games ++ [{ game_id := gid, list_id := lidv, player1_id := p1v,
                               player2_id := none, game_names := selected,
                               target_name := target }] := by
  simp only [create_game] at hok
  split at hok
  · simp at hok
  · split at hok
    · simp at hok
    · split at hok
      · simp at hok
      · split at hok
        · simp at hok
        · rename_i nl heq
          rw [hfind] at heq
          replace heq : nl = src := (Option.some.inj heq).symm
          subst heq
          split at hok
          · simp at hok
          · split at hok
            · simp at hok
            · rename_i gid0 hgen
              split at hok
              · simp at hok
              · split at hok
                · simp at hok
                · rename_i selected0 hsample
                  split at hok
                  · simp at hok
                  · rename_i target0 hchoice
                    simp only [Option.some.injEq, Prod.mk.injEq,
                      CreateGameResult.created.injEq] at hok
                    obtain ⟨⟨hgid, hp1, hsel, htgt, hlid⟩, hs2⟩ := hok
                    subst hsel htgt hgid hlid hp1
                    obtain ⟨hlen, hnodup, hbound, hfm⟩ := sample_eq _ _ _ _ hsample
                    subst hfm
                    refine ⟨?_, ?_, hnodup, hlen, rfl, choice_mem _ _ _ hchoice, ?_⟩
                    · rw [filterMap_get_length _ _ hbound, hlen]
                    · intro n hn
                      rw [List.mem_filterMap] at hn
                      obtain ⟨i, _, hget⟩ := hn
                      exact List.get?_mem hget
                    · rw [← hs2]

/-- Witness for C2: user 1 creates a game from the 30-name list 1; positions
0..23 are drawn, so the stored array is the first 24 names and the target is n0. -/
theorem create_game_sample_24_without_replacement_witness :
    (wStoreLists.name_lists.find? (fun l => toString l.id == "1") = some wList) ∧
    (create_game wStoreLists true (some "1") (some "1") [(0, 0, 0, 1)]
      (List.range 24) 0
      = some (.created "0001" "1" (wNames.take 24) "n0" "1", wStoreListsCreated)) ∧
    ((wNames.take 24).length = 24 ∧ (∀ n ∈ wNames.take 24, n ∈ wList.names) ∧
      (List.range 24).Nodup ∧ (List.range 24).length = 24 ∧
      wNames.take 24 = (List.range 24).filterMap (fun i => wList.names.get? i) ∧
      ("n0" : String) ∈ wNames.take 24 ∧
      wStoreListsCreated.games = wStoreLists.games ++ [wCreatedGame]) :=
  ⟨by decide, by decide,
    create_game_sample_24_without_replacement wStoreLists "1" "1" [(0, 0, 0, 1)]
      (List.range 24) 0 wList "0001" "1" (wNames.take 24) "n0" "1"
      wStoreListsCreated (by decide) (by decide)⟩

/-- C3: a JoinGame request by any registered user on a game whose player2Id is
already set is answered with 409 Conflict and the store is returned completely
unchanged. -/
theorem join_game_full_conflict_unchanged
    (s : Store) (gidReq : String) (p : String) (j : Nat) (g : Game)
    (hp : p ≠ "")
    (hu : (s.users.any fun u => toString u.id == p) = true)
    (hfind : s.games.find? (fun g0 => g0.game_id == gidReq) = some g)
    (hfull : colTruthy g.player2_id = true) :
    join_game s gidReq (some p) j = some (.alreadyFull, s) ∧
      JoinGameResult.alreadyFull.status = 409 := by
  refine ⟨?_, rfl⟩
  simp [join_game, truthyStr, hp, hu, hfind, hfull]

/-- Witness for C3: user 1 tries to join the full game 0008 and gets 409 with
the store unchanged. -/
theorem join_game_full_conflict_unchanged_witness :
    (("1" : String) ≠ "" ∧
      (wStoreFull.users.any fun u => toString u.id == "1") = true ∧
      wStoreFull.games.find? (fun g0 => g0.game_id == "0008") = some wFullGame ∧
      colTruthy wFullGame.player2_id = true) ∧
    (join_game wStoreFull "0008" (some "1") 0 = some (.alreadyFull, wStoreFull) ∧
      JoinGameResult.alreadyFull.status = 409) :=
  ⟨⟨by decide, by decide, by decide, by decide⟩,
    join_game_full_conflict_unchanged wStoreFull "0008" "1" 0 wFullGame
      (by decide) (by decide) (by decide) (by decide)⟩


theorem register_user_preserves_games (s : Store) (b : Bool)
    (u pw : Option String) (fs : String) :
    ((register_user s b u pw fs).2).games = s.games := by
  simp only [register_user]
  split
  · rfl
  split
  · rfl
  split
  · rfl
  split
  · rfl
  · rfl

theorem create_name_list_preserves_games (s : Store) (b : Bool)
    (ln : Option String) (nms : Option (List String)) (oid : Option String)
    (pub : Option Bool) :
    ((create_name_list s b ln nms oid pub).2).games = s.games := by
  simp only [create_name_list]
  split
  · rfl
  split
  · rfl
  split
  · rfl
  · rfl

theorem update_name_list_preserves_games (s : Store) (lid : String) (b : Bool)
    (ln : Option String) (nms : Option (List String)) (pub : Option Bool)
    (oid : Option String) :
    ((update_name_list s lid b ln nms pub oid).2).games = s.games := by
  simp only [update_name_list]
  split
  · rfl
  split
  · rfl
  split
  · rfl
  split
  · rfl
  split
  · rfl
  · rfl

/-- C4: the gameId of every successful CreateGame is a 4-character string of
decimal digits that differs from every stored gameId at insertion time, the new
table of ids is the old one plus that id, duplicate-freedom of the stored ids is
preserved by CreateGame, and every other operation leaves the set of stored
gameIds unchanged, so stored identifiers stay pairwise distinct at every
observation point. -/
theorem create_game_id_4digit_fresh_unique :
    (∀ (s : Store) (p1v lidv : String)
        (idDraws : List (Fin 10 × Fin 10 × Fin 10 × Fin 10)) (samplePos : List Nat)
        (tIdx : Nat) (gid p1 : String) (sel : List String) (tgt lid : String) (s2 : Store),
      create_game s true (some p1v) (some lidv) idDraws samplePos tIdx
        = some (.created gid p1 sel tgt lid, s2) →
      (gid.length = 4 ∧ ∀ c ∈ gid.data, c.isDigit = true) ∧
      (∀ g ∈ s.games, g.game_id ≠ gid) ∧
      s2.games.map (fun g => g.game_id) = s.games.map (fun g => g.game_id) ++ [gid] ∧
      ((s.games.map (fun g => g.game_id)).Nodup →
        (s2.games.map (fun g => g.game_id)).Nodup)) ∧
    (∀ (s : Store) (gidReq : String) (p2v : Option String) (j : Nat)
        (r : JoinGameResult) (s2 : Store),
      join_game s gidReq p2v j = some (r, s2) →
      s2.games.map (fun g => g.game_id) = s.games.map (fun g => g.game_id)) ∧
    (∀ (s : Store) (b : Bool) (u pw : Option String) (fs : String),
      ((register_user s b u pw fs).2).games = s.games) ∧
    (∀ (s : Store) (b : Bool) (ln : Option String) (nms : Option (List String))
        (oid : Option String) (pub : Option Bool),
      ((create_name_list s b ln nms oid pub).2).games = s.games) ∧
    (∀ (s : Store) (lid : String) (b : Bool) (ln : Option String)
        (nms : Option (List String)) (pub : Option Bool) (oid : Option String),
      ((update_name_list s lid b ln nms pub oid).2).games = s.games) := by
  refine ⟨?_, join_game_preserves_game_ids, register_user_preserves_games,
    create_name_list_preserves_games, update_name_list_preserves_games⟩
  intro s p1v lidv idDraws samplePos tIdx gid p1 sel tgt lid s2 hok
  simp only [create_game] at hok
  split at hok
  · simp at hok
  · split at hok
    · simp at hok
    · split at hok
      · simp at hok
      · split at hok
        · simp at hok
        · rename_i nl heq
          split at hok
          · simp at hok
          · split at hok
            · simp at hok
            · rename_i gid0 hgen
              split at hok
              · simp at hok
              · split at hok
                · simp at hok
                · rename_i selected0 hsample
                  split at hok
                  · simp at hok
                  · rename_i target0 hchoice
                    simp only [Option.some.injEq, Prod.mk.injEq,
                      CreateGameResult.created.injEq] at hok
                    obtain ⟨⟨hgid, hp1, hsel, htgt, hlid⟩, hs2⟩ := hok
                    subst hsel htgt hgid hlid hp1
                    obtain ⟨⟨r0, hr0⟩, hfresh⟩ := gen_unique_game_id_eq _ _ _ hgen
                    have hshape := generate_game_id_shape r0
                    rw [← hr0] at hshape
                    have hmap : s2.games.map (fun g => g.game_id)
                        = s.games.map (fun g => g.game_id) ++ [gid0] := by
                      rw [← hs2]
                      simp
                    refine ⟨hshape, hfresh, hmap, ?_⟩
                    intro hnd
                    rw [hmap, List.nodup_append]
                    refine ⟨hnd, List.nodup_singleton gid0, ?_⟩
                    rw [List.disjoint_singleton]
                    intro hmem
                    rw [List.mem_map] at hmem
                    obtain ⟨g, hg, hgeq⟩ := hmem
                    exact hfresh g hg hgeq

/-- Witness for C4: the creation of game 0001 in the fixture store, followed by
the join of game 0007, instantiate the CreateGame and JoinGame conjuncts. -/
theorem create_game_id_4digit_fresh_unique_witness :
    (("0001" : String).length = 4 ∧ ∀ c ∈ ("0001" : String).data, c.isDigit = true) ∧
    (∀ g ∈ wStoreLists.games, g.game_id ≠ "0001") ∧
    (wStoreListsCreated.games.map (fun g => g.game_id)
      = wStoreLists.games.map (fun g => g.game_id) ++ ["0001"]) ∧
    ((wStoreLists.games.map (fun g => g.game_id)).Nodup →
      (wStoreListsCreated.games.map (fun g => g.game_id)).Nodup) ∧
    (wStoreJoined.games.map (fun g => g.game_id)
      = wStoreJoin.games.map (fun g => g.game_id)) := by
  have h1 := (create_game_id_4digit_fresh_unique.1 wStoreLists "1" "1" [(0, 0, 0, 1)]
    (List.range 24) 0 "0001" "1" (wNames.take 24) "n0" "1" wStoreListsCreated
    (by decide))
  have h2 := create_game_id_4digit_fresh_unique.2.1 wStoreJoin "0007" (some "2") 0
    (.ok "0007" "1" "2" wGame.game_names "n1" "1") wStoreJoined (by decide)
  exact ⟨h1.1, h1.2.1, h1.2.2.1, h1.2.2.2, h2⟩

/-- C5 is refuted by the code: on the (reachable) game 0009 whose 24 names all
equal the stored target, a join by registered user 2 commits the player2_id
update and then fails with 500 from the IndexError of `random.choice` on the
empty available list; the failing request leaves player2Id set although no
player-2 target was returned. -/
theorem join_game_failure_after_commit_mutates :
    join_game wStoreDup "0009" (some "2") 0 = some (.internalError, wStoreDupJoined) ∧
    JoinGameResult.internalError.status = 500 ∧
    wStoreDupJoined ≠ wStoreDup ∧
    wDupGameJoined.player2_id = some "2" := by decide

/-- C9: `join_game` leaves the users and name-list tables and the creation-time
fields of every game row (id, list, player1, gameNames, target_name) unchanged,
whatever its outcome - only `player2_id` can change; and `get_game_status`
returns exactly the stored row, in particular the stored creation-time
target_name, without returning any store. -/
theorem join_updates_only_player2_and_status_returns_stored_target :
    (∀ (s : Store) (gidReq : String) (p2v : Option String) (j : Nat)
        (r : JoinGameResult) (s2 : Store),
      join_game s gidReq p2v j = some (r, s2) →
      s2.users = s.users ∧ s2.name_lists = s.name_lists ∧
        s2.games.map gameFrame = s.games.map gameFrame) ∧
    (∀ (s : Store) (gidReq : String) (g : Game),
      s.games.find? (fun g0 => g0.game_id == gidReq) = some g →
      get_game_status s gidReq
        = .ok g.game_id g.list_id g.player1_id g.player2_id g.game_names g.target_name) := by
  refine ⟨join_game_frame, ?_⟩
  intro s gidReq g hfind
  simp [get_game_status, hfind]

/-- Witness for C9: the join of game 0007 preserves the frame of every row, and
the status of game 0007 before the join returns the stored creation-time data. -/
theorem join_updates_only_player2_and_status_returns_stored_target_witness :
    (wStoreJoined.users = wStoreJoin.users ∧
      wStoreJoined.name_lists = wStoreJoin.name_lists ∧
      wStoreJoined.games.map gameFrame = wStoreJoin.games.map gameFrame) ∧
    get_game_status wStoreJoin "0007"
      = .ok wGame.game_id wGame.list_id wGame.player1_id wGame.player2_id
          wGame.game_names wGame.target_name :=
  ⟨join_updates_only_player2_and_status_returns_stored_target.1 wStoreJoin "0007"
      (some "2") 0 (.ok "0007" "1" "2" wGame.game_names "n1" "1") wStoreJoined (by decide),
    join_updates_only_player2_and_status_returns_stored_target.2 wStoreJoin "0007"
      wGame (by decide)⟩

/-- C10 counterexample: the claim's unconditional "succeeds" is false.  Game
0009 is in waiting state and its creator is user 1, yet user 1's self-join is
answered 500 (not success): the 24 gameNames all equal the stored target, so
after the committed UPDATE the available-names list is empty and
`random.choice` raises, whatever is drawn. -/
theorem join_game_self_join_degenerate_fails :
    wDupGame.player2_id = none ∧
    wDupGame.player1_id = "1" ∧
    join_game wStoreDup "0009" (some "1") 0
      = some (.internalError, wStoreDupSelfJoined) ∧
    JoinGameResult.internalError.status = 500 := by
  decide

/-- C10 (amended): on a waiting game whose gameNames contain at least one name
different from the stored target (so the available pool a join draws from is
nonempty; any in-range draw j), a JoinGame by the creating player succeeds -
the code never compares the joiner with player1 - and the committed row then
has player1_id = player2_id.  On the degenerate all-duplicate game the
self-join fails with 500 like any other join (see the counterexample). -/
theorem join_game_self_join_succeeds
    (s : Store) (gidReq : String) (j : Nat) (g : Game)
    (hfind : s.games.find? (fun g0 => g0.game_id == gidReq) = some g)
    (hwait : g.player2_id = none)
    (hp : g.player1_id ≠ "")
    (hu : (s.users.any fun u => toString u.id == g.player1_id) = true)
    (hj : j < (g.game_names.filter (fun n => !(n == g.target_name))).length) :
    ∃ tn s2,
      join_game s gidReq (some g.player1_id) j
        = some (.ok g.game_id g.player1_id g.player1_id g.game_names tn g.list_id, s2) ∧
      s2.games = setPlayer2 s.games gidReq g.player1_id ∧
      { g with player2_id := some g.player1_id } ∈ s2.games := by
  have hch : choice (g.game_names.filter (fun n => !(n == g.target_name))) j
      = some ((g.game_names.filter (fun n => !(n == g.target_name))).get ⟨j, hj⟩) :=
    List.get?_eq_get hj
  have hcol : colTruthy g.player2_id = false := by rw [hwait]; rfl
  refine ⟨(g.game_names.filter (fun n => !(n == g.target_name))).get ⟨j, hj⟩,
    { s with games := setPlayer2 s.games gidReq g.player1_id }, ?_, rfl, ?_⟩
  · simp [join_game, truthyStr, hp, hu, hfind, hcol, hch]
  · have hg : g ∈ s.games := List.mem_of_find?_eq_some hfind
    have hpred : (g.game_id == gidReq) = true := by
      have h0 := List.find?_some hfind
      simpa using h0
    have hmem := List.mem_map_of_mem
      (fun g0 => if g0.game_id == gidReq then { g0 with player2_id := some g.player1_id } else g0) hg
    simp only [hpred, if_true] at hmem
    simpa [setPlayer2] using hmem

/-- Witness for C10: player 1 joins their own waiting game 0007; the row then
has player1_id = player2_id = 1. -/
theorem join_game_self_join_succeeds_witness :
    (wStoreJoin.games.find? (fun g0 => g0.game_id == "0007") = some wGame ∧
      wGame.player2_id = none ∧ wGame.player1_id ≠ "" ∧
      (wStoreJoin.users.any fun u => toString u.id == wGame.player1_id) = true ∧
      0 < (wGame.game_names.filter (fun n => !(n == wGame.target_name))).length) ∧
    (∃ tn s2,
      join_game wStoreJoin "0007" (some wGame.player1_id) 0
        = some (.ok wGame.game_id wGame.player1_id wGame.player1_id
            wGame.game_names tn wGame.list_id, s2) ∧
      s2.games = setPlayer2 wStoreJoin.games "0007" wGame.player1_id ∧
      { wGame with player2_id := some wGame.player1_id } ∈ s2.games) :=
  ⟨⟨by decide, by decide, by decide, by decide, by decide⟩,
    join_game_self_join_succeeds wStoreJoin "0007" 0 wGame (by decide) (by decide)
      (by decide) (by decide) (by decide)⟩



/-- C6 counterexample: the list with id 1 is owned by user 1, yet an Update
request that supplies no ownerId at all is answered 200 and renames the list -
the ownership check (line 319) is skipped when ownerId is absent, so lists are
not mutable by their owner only. -/
theorem update_name_list_without_ownerId_mutates :
    (update_name_list wStoreLists "1" true (some "M") none none none).1 = 200 ∧
    ((update_name_list wStoreLists "1" true (some "M") none none none).2.name_lists.map
      (fun l => l.list_name)) = ["M"] ∧
    wList.owner_id = some "1" ∧
    (update_name_list wStoreLists "1" true (some "M") none none none).2 ≠ wStoreLists := by
  decide

/-- C6 (amended): when a nonempty ownerId is supplied with the Update and it
differs from str() of the stored owner, the operation is rejected with 403 and
the store is returned completely unchanged. -/
theorem update_name_list_owner_mismatch_403_unchanged
    (s : Store) (listIdReq : String) (ln : Option String) (nms : Option (List String))
    (pub : Option Bool) (o : String) (cur : NameListRec)
    (hfind : s.name_lists.find? (fun l => toString l.id == listIdReq) = some cur)
    (ho : o ≠ "") (hmm : ownerStr cur.owner_id ≠ o) :
    update_name_list s listIdReq true ln nms pub (some o) = (403, s) := by
  simp [update_name_list, hfind, truthyStr, ho, hmm]

/-- Witness for amended C6: user 2 tries to rename user 1's list and gets 403
with the store unchanged. -/
theorem update_name_list_owner_mismatch_403_unchanged_witness :
    (wStoreLists.name_lists.find? (fun l => toString l.id == "1") = some wList ∧
      ("2" : String) ≠ "" ∧ ownerStr wList.owner_id ≠ "2") ∧
    update_name_list wStoreLists "1" true (some "M") none none (some "2")
      = (403, wStoreLists) :=
  ⟨⟨by decide, by decide, by decide⟩,
    update_name_list_owner_mismatch_403_unchanged wStoreLists "1" (some "M") none
      none "2" wList (by decide) (by decide) (by decide)⟩

/-- C7 is refuted by the code: registering a fresh username with no password
reaches `hash_password(None)` inside the try block, where `salt + None` raises
`TypeError`, so the request is answered 500 - not 201, and 500 is not among
400/409/415; the same request with a password succeeds with 201. -/
theorem register_without_password_500 :
    register_user wStoreEmpty true (some "carol") none "salt0" = (500, wStoreEmpty) ∧
    (register_user wStoreEmpty true (some "carol") (some "pw") "salt0").1 = 201 := by
  decide

/-- C8 counterexample: an Update whose provided names array is empty (0 entries,
fewer than 24) is not rejected: Python truthiness skips the length check
(line 330), the other provided field is applied, and the stored list changes. -/
theorem update_name_list_empty_names_not_rejected :
    ((some ([] : List String)).isSome = true ∧ ([] : List String).length < 24) ∧
    (update_name_list wStoreLists "1" true (some "M2") (some []) none none).1 = 200 ∧
    (update_name_list wStoreLists "1" true (some "M2") (some []) none none).2
      ≠ wStoreLists := by
  decide

/-- C8 (amended): creating a list with fewer than 24 names fails with 400 and no
write; creating one with exactly 24 names succeeds with 201; and every Update
whose provided names array is nonempty and shorter than 24 entries does not
succeed and leaves the store completely unchanged (an empty provided array is
treated as absent, see the counterexample). -/
theorem name_list_length_checks :
    (∀ (s : Store) (ln : Option String) (nms : List String) (oid : Option String)
        (pub : Option Bool),
      truthyStr ln = true → nms.length < 24 →
      create_name_list s true ln (some nms) oid pub = (400, s)) ∧
    (∀ (s : Store) (ln : Option String) (nms : List String) (oid : Option String)
        (pub : Option Bool),
      truthyStr ln = true → nms.length = 24 →
      (create_name_list s true ln (some nms) oid pub).1 = 201) ∧
    (∀ (s : Store) (lid : String) (b : Bool) (ln : Option String) (nms : List String)
        (pub : Option Bool) (oid : Option String),
      nms ≠ [] → nms.length < 24 →
      (update_name_list s lid b ln (some nms) pub oid).1 ≠ 200 ∧
      (update_name_list s lid b ln (some nms) pub oid).2 = s) := by
  refine ⟨?_, ?_, ?_⟩
  · intro s ln nms oid pub ht hlt
    simp [create_name_list, ht, hlt]
  · intro s ln nms oid pub ht hlen
    have hnlt : ¬nms.length < 24 := by omega
    simp [create_name_list, ht, hnlt]
  · intro s lid b ln nms pub oid hne hlt
    simp only [update_name_list]
    split
    · exact ⟨by norm_num, rfl⟩
    split
    · exact ⟨by norm_num, rfl⟩
    rename_i cur heq
    split
    · exact ⟨by norm_num, rfl⟩
    split
    · exact ⟨by norm_num, rfl⟩
    rename_i hc
    exact absurd (by simp [truthyList, List.isEmpty_iff, hne, hlt]) hc

/-- Witness for amended C8: a 23-name creation fails with 400, a 24-name
creation succeeds with 201, and a 23-name update is not answered 200 and leaves
the store unchanged. -/
theorem name_list_length_checks_witness :
    (create_name_list wStoreEmpty true (some "S") (some (wNames.take 23)) none none
      = (400, wStoreEmpty)) ∧
    ((create_name_list wStoreEmpty true (some "S") (some (wNames.take 24)) none none).1
      = 201) ∧
    ((update_name_list wStoreLists "1" true none (some (wNames.take 23)) none none).1
      ≠ 200 ∧
     (update_name_list wStoreLists "1" true none (some (wNames.take 23)) none none).2
      = wStoreLists) :=
  ⟨name_list_length_checks.1 wStoreEmpty (some "S") (wNames.take 23) none none
      (by decide) (by decide),
   name_list_length_checks.2.1 wStoreEmpty (some "S") (wNames.take 24) none none
      (by decide) (by decide),
   name_list_length_checks.2.2 wStoreLists "1" true none (wNames.take 23) none none
      (by decide) (by decide)⟩


end GuessHow
